import Mathlib

/-!
Verification of the analog clock rendering and interaction engine of
Clock_App (src/clock_app/data/menus/clock.py) against its natural-language
specification.

Modelling conventions: Python floats are modelled by rationals, machine
integers by Int/Nat, Python dicts by functions into Option, and code that can
raise exceptions by Except.  External collaborators (PIL image rotation,
zoneinfo) are modelled from their documented interface behaviour, since the
spec treats them as boundary collaborators.  Trigonometric values
(math.cos/math.sin of the hand angle) are passed as explicit rational
parameters or oracle functions, since the theorems hold for arbitrary values.
-/

namespace ClockApp

/-- Python int() applied to a float: truncation toward zero.  Models the
`int(...)` casts in clock.py. -/
def pyTrunc (q : ℚ) : ℤ := if 0 ≤ q then ⌊q⌋ else ⌈q⌉

/-- Python round() on a float with no digits argument: round half to even. -/
def pyRound (q : ℚ) : ℤ :=
  if q - ⌊q⌋ < 1/2 then ⌊q⌋
  else if 1/2 < q - ⌊q⌋ then ⌊q⌋ + 1
  else if ⌊q⌋ % 2 = 0 then ⌊q⌋ else ⌊q⌋ + 1

/-- Python round(x, 4): round half to even at four decimal places,
used by Clock._save_hand_pivots for pivot ratios. -/
def round4 (q : ℚ) : ℚ := (pyRound (q * 10000) : ℚ) / 10000

/-- Python float modulo for a positive modulus (`hr % 12` in clock.py). -/
def pyFloatMod (a b : ℚ) : ℚ := a - b * ⌊a / b⌋

/-- Update of a dict modelled as a function (`d[k] = v` in Python). -/
def upd {α : Type} (f : String → α) (k : String) (v : α) : String → α :=
  fun x => if x = k then v else f x

/-- A wall-clock timestamp as used by datetime.now(): hour, minute, second,
microsecond. -/
structure Timestamp where
  hour : ℕ
  minute : ℕ
  second : ℕ
  micro : ℕ
deriving DecidableEq

/-- The time-to-angle computation of Clock._draw_analog_hands_only
(clock.py lines 606-615), also performed identically by
Clock._get_hand_transform_info.  Returns (hour angle, minute angle, second
angle) in degrees. -/
def timeAngles (ts : Timestamp) (use12 : Bool) : ℚ × ℚ × ℚ :=
  let sec : ℚ := (ts.second : ℚ) + (ts.micro : ℚ) / 1000000
  let minVal : ℚ := (ts.minute : ℚ) + sec / 60
  let hr0 : ℚ :=
    if use12 then ((ts.hour % 12 : ℕ) : ℚ) + minVal / 60
    else ((ts.hour % 24 : ℕ) : ℚ) + minVal / 60
  let hr : ℚ := if use12 then pyFloatMod hr0 12 else hr0
  (if use12 then hr * 30 else hr * 15, minVal * 6, sec * 6)

/-- A hand pivot specification: the string "center", the string "bottom", or
an (x_ratio, y_ratio) pair, as stored in Clock._hand_pivots. -/
inductive PivotSpec where
  | center : PivotSpec
  | bottom : PivotSpec
  | frac : ℚ → ℚ → PivotSpec
deriving DecidableEq

/-- DEFAULT_HAND_PIVOTS from clock.py, with the "center" fallback of
`DEFAULT_HAND_PIVOTS.get(name, "center")` for unknown names. -/
def defaultHandPivot (name : String) : PivotSpec :=
  if name = "hour" ∨ name = "minute" then PivotSpec.frac (1/2) (41/50)
  else if name = "second" then PivotSpec.bottom
  else PivotSpec.center

/-- Pivot resolution in the scaled, unrotated image, from Clock._rotated_hand
(clock.py lines 222-231) and identically Clock._get_hand_transform_info:
"bottom" gives (w // 2, h - 1), a ratio pair gives (int(w*x), int(h*y)),
anything else gives (w // 2, h // 2); an unset pivot falls back to
DEFAULT_HAND_PIVOTS. -/
def resolvePivotSpec (name : String) (spec : Option PivotSpec) (w h : ℕ) : ℤ × ℤ :=
  match spec.getD (defaultHandPivot name) with
  | PivotSpec.bottom => ((w / 2 : ℕ), (h : ℤ) - 1)
  | PivotSpec.frac x y => (pyTrunc ((w : ℚ) * x), pyTrunc ((h : ℚ) * y))
  | PivotSpec.center => ((w / 2 : ℕ), (h / 2 : ℕ))

/-- Scaled bounding box of a hand image from Clock._rotated_hand
(clock.py lines 218-220): scale = target / max(1, max(w, h)),
new dims = max(1, int(dim * scale)). -/
def scaledDims (iw ih : ℕ) (target : ℚ) : ℕ × ℕ :=
  let scale : ℚ := target / ((max 1 (max iw ih) : ℕ) : ℚ)
  (max 1 (pyTrunc ((iw : ℚ) * scale)).toNat, max 1 (pyTrunc ((ih : ℚ) * scale)).toNat)

/-- Per-hand base scale factors from Clock._rotated_hand
(`scale_factors.get(name, 0.5)`). -/
def scaleFac (name : String) : ℚ :=
  if name = "hour" then 2/5
  else if name = "minute" then 1/2
  else if name = "second" then 11/20
  else 1/2

/-- The x coordinate of image point (x, y) rotated about the pivot (px, py),
where c and s stand for cos and sin of the rotation angle, exactly as in
clock.py lines 241-244. -/
def rotX (px py : ℤ) (c s : ℚ) (x y : ℤ) : ℚ :=
  ((x : ℚ) - (px : ℚ)) * c - ((y : ℚ) - (py : ℚ)) * s + (px : ℚ)

/-- The y coordinate of image point (x, y) rotated about the pivot (px, py). -/
def rotY (px py : ℤ) (c s : ℚ) (x y : ℤ) : ℚ :=
  ((x : ℚ) - (px : ℚ)) * s + ((y : ℚ) - (py : ℚ)) * c + (py : ℚ)

/-- Exact minimum x coordinate of the four rotated corners of a w-by-h image. -/
def minRotX (w h : ℕ) (px py : ℤ) (c s : ℚ) : ℚ :=
  min (min (rotX px py c s 0 0) (rotX px py c s (w : ℤ) 0))
    (min (rotX px py c s (w : ℤ) (h : ℤ)) (rotX px py c s 0 (h : ℤ)))

/-- Exact minimum y coordinate of the four rotated corners of a w-by-h image. -/
def minRotY (w h : ℕ) (px py : ℤ) (c s : ℚ) : ℚ :=
  min (min (rotY px py c s 0 0) (rotY px py c s (w : ℤ) 0))
    (min (rotY px py c s (w : ℤ) (h : ℤ)) (rotY px py c s 0 (h : ℤ)))

/-- The x component of the analytically computed pivot location inside the
rotated image, from Clock._rotated_hand lines 240-247: each rotated corner is
truncated with int(), the minimum is taken, and pivot_out_x = px - min_x. -/
def pivotOutX (w h : ℕ) (px py : ℤ) (c s : ℚ) : ℤ :=
  px - min (min (pyTrunc (rotX px py c s 0 0)) (pyTrunc (rotX px py c s (w : ℤ) 0)))
    (min (pyTrunc (rotX px py c s (w : ℤ) (h : ℤ))) (pyTrunc (rotX px py c s 0 (h : ℤ))))

/-- The y component of the analytically computed pivot location inside the
rotated image (pivot_out_y = py - min_y in Clock._rotated_hand). -/
def pivotOutY (w h : ℕ) (px py : ℤ) (c s : ℚ) : ℤ :=
  py - min (min (pyTrunc (rotY px py c s 0 0)) (pyTrunc (rotY px py c s (w : ℤ) 0)))
    (min (pyTrunc (rotY px py c s (w : ℤ) (h : ℤ))) (pyTrunc (rotY px py c s 0 (h : ℤ))))

/-- The x coordinate of image point (x, y) under the output-to-input matrix
built by PIL Image.rotate for the call rotate(-angle_deg, center=(px, py)):
with c and s the cosine and sine of angle_deg in radians, that matrix is
[c, s; -s, c] about the center.  Modelled from the Pillow source, which
transforms the input corners through this matrix to size the expanded
output. -/
def pilInvX (px py : ℤ) (c s : ℚ) (x y : ℤ) : ℚ :=
  ((x : ℚ) - (px : ℚ)) * c + ((y : ℚ) - (py : ℚ)) * s + (px : ℚ)

/-- The y coordinate of image point (x, y) under PIL's output-to-input
matrix; see pilInvX. -/
def pilInvY (px py : ℤ) (c s : ℚ) (x y : ℤ) : ℚ :=
  -(((x : ℚ) - (px : ℚ)) * s) + ((y : ℚ) - (py : ℚ)) * c + (py : ℚ)

/-- The expanded output width computed by PIL Image.rotate with expand=True:
nw = ceil(max xx) - floor(min xx) over the four corners transformed by the
output-to-input matrix.  Modelled from the Pillow source. -/
def pilExpandedW (w h : ℕ) (px py : ℤ) (c s : ℚ) : ℤ :=
  ⌈max (max (pilInvX px py c s 0 0) (pilInvX px py c s (w : ℤ) 0))
      (max (pilInvX px py c s (w : ℤ) (h : ℤ)) (pilInvX px py c s 0 (h : ℤ)))⌉ -
  ⌊min (min (pilInvX px py c s 0 0) (pilInvX px py c s (w : ℤ) 0))
      (min (pilInvX px py c s (w : ℤ) (h : ℤ)) (pilInvX px py c s 0 (h : ℤ)))⌋

/-- The expanded output height computed by PIL Image.rotate with expand=True;
see pilExpandedW. -/
def pilExpandedH (w h : ℕ) (px py : ℤ) (c s : ℚ) : ℤ :=
  ⌈max (max (pilInvY px py c s 0 0) (pilInvY px py c s (w : ℤ) 0))
      (max (pilInvY px py c s (w : ℤ) (h : ℤ)) (pilInvY px py c s 0 (h : ℤ)))⌉ -
  ⌊min (min (pilInvY px py c s 0 0) (pilInvY px py c s (w : ℤ) 0))
      (min (pilInvY px py c s (w : ℤ) (h : ℤ)) (pilInvY px py c s 0 (h : ℤ)))⌋

/-- The x coordinate of the rotation center inside PIL's expanded output.
Modelled from the Pillow source: with expand, the translation is replaced by
transform(-(nw - w) / 2, -(nh - h) / 2, matrix), so the forward map sends
input q to R(q - center) + center + ((nw - w) / 2, (nh - h) / 2) and the
rotation center lands at center + ((nw - w) / 2, (nh - h) / 2); the docs note
that the expand flag assumes rotation around the image center, which is why
this differs from a tight bounding box about an off-center pivot. -/
def pilPivotInExpandedX (w h : ℕ) (px py : ℤ) (c s : ℚ) : ℚ :=
  (px : ℚ) + ((pilExpandedW w h px py c s : ℚ) - (w : ℚ)) / 2

/-- The y coordinate of the rotation center inside PIL's expanded output;
see pilPivotInExpandedX. -/
def pilPivotInExpandedY (w h : ℕ) (px py : ℤ) (c s : ℚ) : ℚ :=
  (py : ℚ) + ((pilExpandedH w h px py c s : ℚ) - (h : ℚ)) / 2

/-- Canvas x position of image point (qx, qy) when the hand image, rotated by
the angle with cosine c and sine s about integer pivot P, is placed so that P
lands at canvas point (cx + dx1, ...).  This is the ideal rigid motion of the
rendered hand, used to compare visual positions. -/
def idealPosX (cx dx1 : ℤ) (P : ℤ × ℤ) (c s : ℚ) (qx qy : ℚ) : ℚ :=
  (cx : ℚ) + (dx1 : ℚ) + ((qx - (P.1 : ℚ)) * c - (qy - (P.2 : ℚ)) * s)

/-- Canvas y position of image point (qx, qy); see idealPosX. -/
def idealPosY (cy dy1 : ℤ) (P : ℤ × ℤ) (c s : ℚ) (qx qy : ℚ) : ℚ :=
  (cy : ℚ) + (dy1 : ℚ) + ((qx - (P.1 : ℚ)) * s + (qy - (P.2 : ℚ)) * c)

/-- A pivot entry as written to clock_pivots.json by Clock._save_hand_pivots:
either the pivot tag string or the ratio pair rounded to 4 decimals. -/
inductive SavedPivot where
  | tag : String → SavedPivot
  | pair : ℚ → ℚ → SavedPivot
deriving DecidableEq

/-- The JSON object written by Clock._save_hand_pivots: a pivot entry per hand
that has one, plus an "offsets" object holding each hand offset
(default (0, 0)). -/
structure SavedGeometry where
  pivotTags : String → Option SavedPivot
  offsets : String → ℤ × ℤ

/-- Conversion of an in-memory pivot spec to its saved form
(Clock._save_hand_pivots lines 340-345). -/
def savedOfSpec : PivotSpec → SavedPivot
  | PivotSpec.center => SavedPivot.tag "center"
  | PivotSpec.bottom => SavedPivot.tag "bottom"
  | PivotSpec.frac x y => SavedPivot.pair (round4 x) (round4 y)

/-- Clock._save_hand_pivots: builds the persisted geometry record from the
hand pivots and element offsets (only the hour, minute and second entries are
written). -/
def saveGeometry (pivots : String → Option PivotSpec)
    (offs : String → Option (ℤ × ℤ)) : SavedGeometry :=
  { pivotTags := fun k =>
      if k = "hour" ∨ k = "minute" ∨ k = "second" then (pivots k).map savedOfSpec else none
  , offsets := fun k =>
      if k = "hour" ∨ k = "minute" ∨ k = "second" then (offs k).getD (0, 0) else (0, 0) }

/-- The mutable state of the Clock widget relevant to geometry and
interaction.  `persisted` models the current content of clock_pivots.json;
`hasCanvas` and `hasHandImages` model the hasattr checks; `canvasW`/`canvasH`
model the canvas dimensions reported by winfo_width/height. -/
structure ClockState where
  useDigital : Bool
  use12Hour : Bool
  canvasW : ℕ
  canvasH : ℕ
  now : Timestamp
  handImages : String → Option (ℕ × ℕ)
  handPivots : String → Option PivotSpec
  elementOffsets : String → Option (ℤ × ℤ)
  scaleOverride : String → Option ℚ
  rotationOverride : String → Option ℚ
  dragDrop : String → Option Bool
  resizeModeElement : Option String
  dragTarget : Option String
  dragStart : ℤ × ℤ
  lastCanvasSize : Option (ℤ × ℤ)
  hasCanvas : Bool
  hasHandImages : Bool
  persisted : SavedGeometry

/-- `self._element_offsets.get(key, (0, 0))`. -/
def getOffset (s : ClockState) (k : String) : ℤ × ℤ :=
  (s.elementOffsets k).getD (0, 0)

/-- Clock._get_clock_dimensions: returns (radius, center_x, center_y); a
degenerate canvas (either dimension at most 1) is treated as 300 by 300. -/
def getClockDimensions (s : ClockState) : ℕ × ℕ × ℕ :=
  let wh : ℕ × ℕ := if s.canvasW ≤ 1 ∨ s.canvasH ≤ 1 then (300, 300) else (s.canvasW, s.canvasH)
  (max 20 (min wh.1 wh.2 / 2), wh.1 / 2, wh.2 / 2)

/-- The current angle of a hand: time-derived angle plus rotation override, as
computed by Clock._get_hand_transform_info (and _draw_analog_hands_only). -/
def handAngle (s : ClockState) (name : String) : ℚ :=
  let A := timeAngles s.now s.use12Hour
  (if name = "hour" then A.1
   else if name = "minute" then A.2.1
   else if name = "second" then A.2.2
   else 0) + (s.rotationOverride name).getD 0

/-- Clock._get_hand_transform_info: returns (new_w, new_h, pivot_x, pivot_y,
angle_deg) for a hand, or none when the image is missing. -/
def handTransformInfo (s : ClockState) (name : String) (radius : ℕ) :
    Option (ℕ × ℕ × ℤ × ℤ × ℚ) :=
  match (if s.hasHandImages then s.handImages name else none) with
  | none => none
  | some wh =>
    let target : ℚ := (radius : ℚ) * scaleFac name * ((s.scaleOverride name).getD 1)
    let WH := scaledDims wh.1 wh.2 target
    let p := resolvePivotSpec name (s.handPivots name) WH.1 WH.2
    some (WH.1, WH.2, p.1, p.2, handAngle s name)

/-- Clock._compute_pivot_from_offset: converts an accumulated drag offset into
a new pivot ratio pair, clamped to [0.001, 0.999].  cosO and sinO are oracles
for math.cos and math.sin of the angle converted to radians. -/
def computePivotFromOffset (cosO sinO : ℚ → ℚ) (s : ClockState) (name : String)
    (dx dy : ℤ) : Option (ℚ × ℚ) :=
  match handTransformInfo s name (getClockDimensions s).1 with
  | none => none
  | some info =>
    let W := info.1
    let H := info.2.1
    let px := info.2.2.1
    let py := info.2.2.2.1
    let ang := info.2.2.2.2
    let c := cosO ang
    let sn := sinO ang
    let offX : ℚ := -(dx : ℚ) * c - (dy : ℚ) * sn
    let offY : ℚ := (dx : ℚ) * sn - (dy : ℚ) * c
    let xr : ℚ := max (1/1000) (min (999/1000) (((px : ℚ) + offX) / (W : ℚ)))
    let yr : ℚ := max (1/1000) (min (999/1000) (((py : ℚ) + offY) / (H : ℚ)))
    some (xr, yr)

/-- The bake-in step inside Clock.set_drag_drop: when the element has a
nonzero offset, the clock is analog, and canvas and hand images exist, the
offset is converted to a pivot and reset to (0, 0). -/
def bakeInPivot (cosO sinO : ℚ → ℚ) (s1 : ClockState) (element : String) : ClockState :=
  if getOffset s1 element ≠ ((0, 0) : ℤ × ℤ) ∧ s1.useDigital = false ∧
      s1.hasCanvas = true ∧ s1.hasHandImages = true then
    match computePivotFromOffset cosO sinO s1 element (getOffset s1 element).1
        (getOffset s1 element).2 with
    | some xy =>
      { s1 with
        handPivots := upd s1.handPivots element (some (PivotSpec.frac xy.1 xy.2))
        elementOffsets := upd s1.elementOffsets element (some (0, 0)) }
    | none => s1
  else s1

/-- The `if not self._use_digital: self._save_hand_pivots()` tail of
Clock.set_drag_drop. -/
def persistIfAnalog (s2 : ClockState) : ClockState :=
  if s2.useDigital = false then
    { s2 with persisted := saveGeometry s2.handPivots s2.elementOffsets }
  else s2

/-- Clock.set_drag_drop(element, enabled). -/
def setDragDrop (cosO sinO : ℚ → ℚ) (s : ClockState) (element : String)
    (enabled : Bool) : ClockState :=
  let s1 : ClockState := { s with dragDrop := upd s.dragDrop element (some enabled) }
  if enabled then s1
  else if element = "hour" ∨ element = "minute" ∨ element = "second" then
    persistIfAnalog (bakeInPivot cosO sinO s1 element)
  else s1

/-- Clock.set_element_scale: `self._element_scale_override[element] =
max(0.1, scale)`. -/
def setElementScale (s : ClockState) (element : String) (scale : ℚ) : ClockState :=
  { s with scaleOverride := upd s.scaleOverride element (some (max (1/10) scale)) }

/-- Clock.adjust_resize_scale: returns whether the event was handled together
with the updated state; the element in resize mode gets
max(0.1, min(5.0, current + delta)). -/
def adjustResizeScale (s : ClockState) (delta : ℚ) : Bool × ClockState :=
  match s.resizeModeElement with
  | none => (false, s)
  | some e =>
    let cur := (s.scaleOverride e).getD 1
    (true, { s with scaleOverride := upd s.scaleOverride e (some (max (1/10) (min 5 (cur + delta)))) })

/-- One step of the offset-rescaling loop in Clock._on_canvas_configure: a
nonzero offset for `key` is multiplied componentwise by (sx, sy) and rounded. -/
def rescaleOffsetKey (sx sy : ℚ) (f : String → Option (ℤ × ℤ)) (key : String) :
    String → Option (ℤ × ℤ) :=
  if (f key).getD (0, 0) ≠ ((0, 0) : ℤ × ℤ) then
    upd f key (some (pyRound ((((f key).getD (0, 0)).1 : ℚ) * sx),
      pyRound ((((f key).getD (0, 0)).2 : ℚ) * sy)))
  else f

/-- The full offset-rescaling loop of Clock._on_canvas_configure over the keys
"face", "hour", "minute", "second". -/
def rescaleAllOffsets (sx sy : ℚ) (f : String → Option (ℤ × ℤ)) :
    String → Option (ℤ × ℤ) :=
  rescaleOffsetKey sx sy
    (rescaleOffsetKey sx sy
      (rescaleOffsetKey sx sy (rescaleOffsetKey sx sy f "face") "hour") "minute") "second"

/-- Clock._on_canvas_configure: rescales nonzero offsets by the dimension
ratios when a previous positive canvas size is known, persists, and records
the new canvas size. -/
def onCanvasConfigure (s : ClockState) (ew eh : ℤ) : ClockState :=
  let nw : ℤ := max 1 ew
  let nh : ℤ := max 1 eh
  let s1 : ClockState :=
    match s.lastCanvasSize with
    | some wh =>
      if 0 < wh.1 ∧ 0 < wh.2 then
        let offs := rescaleAllOffsets ((nw : ℚ) / (wh.1 : ℚ)) ((nh : ℚ) / (wh.2 : ℚ))
          s.elementOffsets
        { s with
            elementOffsets := offs,
            persisted := saveGeometry s.handPivots offs }
      else s
    | none => s
  { s1 with lastCanvasSize := some (nw, nh) }

/-- Clock._on_canvas_click: `hit` is the topmost element tag under the
pointer; a draggable element becomes the drag target. -/
def onCanvasClick (s : ClockState) (hit : Option String) (ex ey : ℤ) : ClockState :=
  match hit with
  | some tag =>
    if tag = "face" ∨ tag = "hour" ∨ tag = "minute" ∨ tag = "second" then
      if (s.dragDrop tag).getD false = true then
        { s with
            dragTarget := some tag,
            dragStart := (ex, ey),
            elementOffsets := upd s.elementOffsets tag (some (getOffset s tag)) }
      else s
    else s
  | none => s

/-- Clock._on_canvas_drag: accumulates the pointer delta into the target
element offset. -/
def onCanvasDrag (s : ClockState) (ex ey : ℤ) : ClockState :=
  match s.dragTarget with
  | none => s
  | some t =>
    { s with
      elementOffsets := upd s.elementOffsets t
        (some ((getOffset s t).1 + (ex - s.dragStart.1), (getOffset s t).2 + (ey - s.dragStart.2))),
      dragStart := (ex, ey) }

/-- Clock._on_canvas_release: only clears the active drag target. -/
def onCanvasRelease (s : ClockState) : ClockState :=
  { s with dragTarget := none }

/-- A parsed JSON value, as produced by json.load. -/
inductive JValue where
  | null : JValue
  | bool : Bool → JValue
  | num : ℚ → JValue
  | str : String → JValue
  | arr : List JValue → JValue
  | obj : List (String × JValue) → JValue

/-- The Python exception classes that the geometry loader can raise or catch. -/
inductive PyExc where
  | typeError : PyExc
  | valueError : PyExc
  | attributeError : PyExc
  | keyError : PyExc
  | jsonDecodeError : PyExc
  | osError : PyExc
deriving DecidableEq

/-- Python `key in data` for a JSON value: dict key membership, list element
membership, substring test for strings; TypeError for null, bool, number. -/
def jContains (v : JValue) (key : String) : Except PyExc Bool :=
  match v with
  | JValue.obj kvs => Except.ok (kvs.any (fun p => p.1 = key))
  | JValue.arr xs =>
    Except.ok (xs.any (fun x => match x with | JValue.str t => t = key | _ => false))
  | JValue.str t => Except.ok (key.isEmpty || (t.splitOn key).length ≥ 2)
  | _ => Except.error PyExc.typeError

/-- Python `data[key]` with a string key: works on dicts; TypeError on
strings, lists (indices must be integers) and on non-subscriptable values. -/
def jIndexStr (v : JValue) (key : String) : Except PyExc JValue :=
  match v with
  | JValue.obj kvs =>
    match kvs.find? (fun p => p.1 = key) with
    | some p => Except.ok p.2
    | none => Except.error PyExc.keyError
  | _ => Except.error PyExc.typeError

/-- Python `data.get(key, default)`: only dicts have .get; anything else
raises AttributeError. -/
def jGetAttrD (v : JValue) (key : String) (dflt : JValue) : Except PyExc JValue :=
  match v with
  | JValue.obj kvs =>
    Except.ok (((kvs.find? (fun p => p.1 = key)).map (fun p => p.2)).getD dflt)
  | _ => Except.error PyExc.attributeError

/-- Digit-string value helper for the numeric-string parsers. -/
def decDigitsVal (cs : List Char) : ℕ :=
  cs.foldl (fun a c => 10 * a + (c.toNat - 48)) 0

/-- Python int() on a string: an optionally signed plain digit string
(abbreviated model: underscores and unicode digits are not modelled). -/
def parseIntStr (t : String) : Option ℤ :=
  let t := t.trim
  let sr : ℤ × String :=
    if t.startsWith "-" then (-1, t.drop 1)
    else if t.startsWith "+" then (1, t.drop 1) else (1, t)
  let cs := sr.2.toList
  if cs.isEmpty || !cs.all Char.isDigit then none
  else some (sr.1 * (decDigitsVal cs : ℤ))

/-- Python float() on a string: an optionally signed decimal digit string
with at most one point (abbreviated model: exponents, inf and nan are not
modelled). -/
def parseFloatStr (t : String) : Option ℚ :=
  let t := t.trim
  let sr : ℚ × String :=
    if t.startsWith "-" then (-1, t.drop 1)
    else if t.startsWith "+" then (1, t.drop 1) else (1, t)
  match sr.2.splitOn "." with
  | [a] =>
    if a.toList.isEmpty || !a.toList.all Char.isDigit then none
    else some (sr.1 * (decDigitsVal a.toList : ℚ))
  | [a, b] =>
    if (a.toList.isEmpty && b.toList.isEmpty) || !a.toList.all Char.isDigit ||
        !b.toList.all Char.isDigit then none
    else some (sr.1 * ((decDigitsVal a.toList : ℚ) +
      (decDigitsVal b.toList : ℚ) / (10 : ℚ) ^ b.toList.length))
  | _ => none

/-- Python float(x) on a JSON value: numbers and bools convert, numeric
strings parse (ValueError otherwise), everything else raises TypeError. -/
def pyFloatOfJ (v : JValue) : Except PyExc ℚ :=
  match v with
  | JValue.num q => Except.ok q
  | JValue.bool b => Except.ok (if b then 1 else 0)
  | JValue.str t =>
    match parseFloatStr t with
    | some q => Except.ok q
    | none => Except.error PyExc.valueError
  | _ => Except.error PyExc.typeError

/-- Python int(x) on a JSON value: numbers truncate toward zero, bools
convert, integer strings parse (ValueError otherwise), everything else raises
TypeError. -/
def pyIntOfJ (v : JValue) : Except PyExc ℤ :=
  match v with
  | JValue.num q => Except.ok (pyTrunc q)
  | JValue.bool b => Except.ok (if b then 1 else 0)
  | JValue.str t =>
    match parseIntStr t with
    | some n => Except.ok n
    | none => Except.error PyExc.valueError
  | _ => Except.error PyExc.typeError

/-- The in-memory result of Clock._load_hand_pivots: the entries written into
self._hand_pivots and self._element_offsets (association lists, initially
empty, so unparsed entries keep their defaults). -/
structure LoadedGeom where
  pivots : List (String × PivotSpec)
  loadedOffsets : List (String × (ℤ × ℤ))
deriving DecidableEq

/-- Insert-or-replace on an association list (Python dict assignment). -/
def setAssoc {α : Type} (l : List (String × α)) (k : String) (v : α) :
    List (String × α) :=
  if l.any (fun p => p.1 = k) then l.map (fun p => if p.1 = k then (k, v) else p)
  else l ++ [(k, v)]

/-- One iteration of the pivot-reading loop in Clock._load_hand_pivots
(lines 319-325): a 2-element list becomes a ratio pair via float(), a
"center"/"bottom" string (case-insensitive) becomes that tag, anything else
is skipped. -/
def pivotStepKey (v : JValue) (st : LoadedGeom) (key : String) :
    Except PyExc LoadedGeom := do
  let b ← jContains v key
  if b then
    let val ← jIndexStr v key
    match val with
    | JValue.arr [x, y] => do
      let fx ← pyFloatOfJ x
      let fy ← pyFloatOfJ y
      pure { st with pivots := setAssoc st.pivots key (PivotSpec.frac fx fy) }
    | JValue.str t =>
      if t.toLower = "center" then
        pure { st with pivots := setAssoc st.pivots key PivotSpec.center }
      else if t.toLower = "bottom" then
        pure { st with pivots := setAssoc st.pivots key PivotSpec.bottom }
      else pure st
    | _ => pure st
  else pure st

/-- One iteration of the offsets-reading loop in Clock._load_hand_pivots
(lines 327-333): a 2-element list becomes an integer pair via int(). -/
def offsetStepKey (offs : JValue) (st : LoadedGeom) (key : String) :
    Except PyExc LoadedGeom := do
  let b ← jContains offs key
  if b then
    let ov ← jIndexStr offs key
    match ov with
    | JValue.arr [x, y] => do
      let ix ← pyIntOfJ x
      let iy ← pyIntOfJ y
      pure { st with loadedOffsets := setAssoc st.loadedOffsets key (ix, iy) }
    | _ => pure st
  else pure st

/-- The try-block body of Clock._load_hand_pivots applied to the parsed JSON
document. -/
def loadBody (v : JValue) : Except PyExc LoadedGeom := do
  let st1 ← pivotStepKey v ⟨[], []⟩ "hour"
  let st2 ← pivotStepKey v st1 "minute"
  let st3 ← pivotStepKey v st2 "second"
  let offs ← jGetAttrD v "offsets" (JValue.obj [])
  let st4 ← offsetStepKey offs st3 "hour"
  let st5 ← offsetStepKey offs st4 "minute"
  offsetStepKey offs st5 "second"

/-- The state of the geometry file on disk: absent, unreadable or not valid
JSON (json.load raises JSONDecodeError or OSError), or a parsed document. -/
inductive GeomFile where
  | missing : GeomFile
  | badParse : GeomFile
  | parsed : JValue → GeomFile

/-- Clock._load_hand_pivots (lines 312-335): a missing file returns
immediately; json.load failures (JSONDecodeError, OSError) are caught and
leave the defaults; any other exception raised while traversing the document
propagates to the caller (the except clause names only those two classes). -/
def loadHandPivots : GeomFile → Except PyExc LoadedGeom
  | GeomFile.missing => Except.ok ⟨[], []⟩
  | GeomFile.badParse => Except.ok ⟨[], []⟩
  | GeomFile.parsed v =>
    match loadBody v with
    | Except.ok st => Except.ok st
    | Except.error e =>
      if e = PyExc.jsonDecodeError ∨ e = PyExc.osError then Except.ok ⟨[], []⟩
      else Except.error e

/-- The abbreviation table _TZ_ABBREV_TO_IANA from clock.py. -/
def tzAbbrevToIana : List (String × String) :=
  [("UTC", "UTC"), ("GMT", "Etc/GMT"), ("EST", "America/New_York"),
   ("CST", "America/Chicago"), ("MST", "America/Denver"),
   ("PST", "America/Los_Angeles")]

/-- Python str.strip() membership test for the default whitespace set
(modelled structurally so it evaluates on literals). -/
def isPySpace (c : Char) : Bool :=
  (c == ' ') || (c == '\t') || (c == '\n') || (c == '\r')

/-- Python str.strip(): leading and trailing whitespace removed. -/
def pyStrip (s : String) : String :=
  String.mk (((s.toList.dropWhile isPySpace).reverse.dropWhile isPySpace).reverse)

/-- Python str.upper() for the ASCII strings used as timezone keys. -/
def pyUpper (s : String) : String :=
  String.mk (s.toList.map Char.toUpper)

/-- Splits a character list at every slash (path components of a zoneinfo
key). -/
def splitSlash : List Char → List (List Char)
  | [] => [[]]
  | c :: rest =>
    match splitSlash rest with
    | [] => [[]]
    | g :: gs => if c = '/' then [] :: g :: gs else (c :: g) :: gs

/-- The exceptions zoneinfo.ZoneInfo can raise: ZoneInfoNotFoundError for a
key with no matching zone, ValueError for a malformed key. -/
inductive TzErr where
  | notFound : TzErr
  | valueError : TzErr
deriving DecidableEq

/-- Modelled from the documented zoneinfo.ZoneInfo key validation: a key that
is an absolute path or contains a parent-directory component is invalid and
raises ValueError (the anti-path-traversal check). -/
def tzKeyMalformed (key : String) : Bool :=
  (match key.toList with
   | '/' :: _ => true
   | _ => false) ||
  (splitSlash key.toList).any (fun comp => comp == ['.', '.'])

/-- Modelled from the documented behaviour of zoneinfo.ZoneInfo: a malformed
key (absolute path or parent-directory traversal) raises ValueError; a
well-formed key present in the IANA database `db` yields the zone; any other
key raises ZoneInfoNotFoundError. -/
def zoneInfoModel (db : String → Bool) (key : String) : Except TzErr String :=
  if tzKeyMalformed key then Except.error TzErr.valueError
  else if db key then Except.ok key
  else Except.error TzErr.notFound

/-- _resolve_timezone from clock.py (lines 44-55): blank input gives None, a
known abbreviation maps through the table (outside any try), otherwise
ZoneInfo is tried directly and ONLY ZoneInfoNotFoundError is caught (giving
None); a ValueError from key validation propagates to the caller, and
_load_clock_config (line 90) calls this with no guard of its own. -/
def resolveTimezone (db : String → Bool) (abb : String) :
    Except TzErr (Option String) :=
  if (pyStrip abb).toList.isEmpty then Except.ok none
  else
    match tzAbbrevToIana.find? (fun p => p.1 = pyUpper (pyStrip abb)) with
    | some p => (zoneInfoModel db p.2).map some
    | none =>
      match zoneInfoModel db (pyStrip abb) with
      | Except.ok z => Except.ok (some z)
      | Except.error TzErr.notFound => Except.ok none
      | Except.error TzErr.valueError => Except.error TzErr.valueError

/-- `datetime.now(self._tz) if self._tz else datetime.now()`: the timestamp
used by the clock, given a local clock and a per-zone clock. -/
def currentTimestamp (tz : Option String) (localClock : Timestamp)
    (zoneClock : String → Timestamp) : Timestamp :=
  match tz with
  | some z => zoneClock z
  | none => localClock

/-- The configuration snapshot fields relevant to mode selection
(from _load_clock_config). -/
structure ClockConfig where
  animation : Bool
  clockType : String
deriving DecidableEq

/-- The mode predicate computed in Clock.__init__ (lines 124-127) and
re-derived in Clock._refresh_on_show (lines 471-474):
`not animation and clock_type == "Digital"`. -/
def useDigitalCfg (cfg : ClockConfig) : Bool :=
  !cfg.animation && (cfg.clockType == "Digital")

/-- The kind of display widget built by Clock._build_clock_display. -/
inductive DisplayKind where
  | digital : DisplayKind
  | analog : DisplayKind
deriving DecidableEq

/-- Clock._build_clock_display: a digital label when the mode flag is set,
else the analog canvas. -/
def buildDisplay (useDig : Bool) : DisplayKind :=
  if useDig then DisplayKind.digital else DisplayKind.analog

/-- Clock._refresh_on_show, mode-related part: reloads the config, recomputes
the mode flag, and rebuilds the display only when the flag changed; returns
the new flag and the display after the refresh. -/
def refreshOnShow (cur : Bool) (curDisplay : DisplayKind) (cfg : ClockConfig) :
    Bool × DisplayKind :=
  let newUse := useDigitalCfg cfg
  if newUse = cur then (cur, curDisplay) else (newUse, buildDisplay newUse)

/-- Oracle returning 1 for every angle (cos of angle 0). -/
def oracleOne : ℚ → ℚ := fun _ => 1

/-- Oracle returning 0 for every angle (sin of angle 0). -/
def oracleZero : ℚ → ℚ := fun _ => 0

/-- A baseline analog-mode clock state on a 300-by-300 canvas at midnight,
with all maps empty. -/
def baseState : ClockState :=
  { useDigital := false
  , use12Hour := true
  , canvasW := 300
  , canvasH := 300
  , now := ⟨0, 0, 0, 0⟩
  , handImages := fun _ => none
  , handPivots := fun _ => none
  , elementOffsets := fun _ => none
  , scaleOverride := fun _ => none
  , rotationOverride := fun _ => none
  , dragDrop := fun _ => none
  , resizeModeElement := none
  , dragTarget := none
  , dragStart := (0, 0)
  , lastCanvasSize := none
  , hasCanvas := true
  , hasHandImages := true
  , persisted := saveGeometry (fun _ => none) (fun _ => none) }

/-- Concrete state for the bake-in witness: a 10-by-10 hour-hand image with a
centered pivot and offset (-5, -7). -/
def c4wState : ClockState :=
  { baseState with
      handImages := fun k => if k = "hour" then some (10, 10) else none
    , handPivots := fun k => if k = "hour" then some (PivotSpec.frac (1/2) (1/2)) else none
    , elementOffsets := fun k => if k = "hour" then some (-5, -7) else none }

/-- Concrete state for the bake-in counterexample: the same hand dragged by
(-3000, 0), far enough that the derived pivot ratio is clamped. -/
def c4xState : ClockState :=
  { baseState with
      handImages := fun k => if k = "hour" then some (10, 10) else none
    , handPivots := fun k => if k = "hour" then some (PivotSpec.frac (1/2) (1/2)) else none
    , elementOffsets := fun k => if k = "hour" then some (-3000, 0) else none }

/-- Concrete state for the resize-mode scale claims: the hour hand is in
resize mode, all overrides at their defaults. -/
def c5State : ClockState :=
  { baseState with resizeModeElement := some "hour" }

/-- Concrete state for the canvas-resize instance: hour offset (40, 20) in a
300-by-300 canvas. -/
def c6iState : ClockState :=
  { baseState with
      elementOffsets := fun k => if k = "hour" then some (40, 20) else none
    , lastCanvasSize := some (300, 300) }

/-- Concrete state for the drag-release counterexample: the hour hand is
draggable and the persisted record matches the all-zero offsets. -/
def c7State : ClockState :=
  { baseState with dragDrop := fun k => if k = "hour" then some true else none }

/-- The sample IANA database for the timezone witness: exactly the targets of
the abbreviation table. -/
def sampleTzDb : String → Bool := fun k =>
  ["UTC", "Etc/GMT", "America/New_York", "America/Chicago", "America/Denver",
   "America/Los_Angeles"].contains k

theorem pyTrunc_mono : Monotone pyTrunc := by
  intro a b hab
  unfold pyTrunc
  by_cases ha : (0 : ℚ) ≤ a
  · rw [if_pos ha, if_pos (le_trans ha hab)]
    exact Int.floor_le_floor hab
  · rw [if_neg ha]
    by_cases hb : (0 : ℚ) ≤ b
    · rw [if_pos hb]
      have h1 : ⌈a⌉ ≤ 0 := by
        have := Int.ceil_le_ceil (le_of_lt (lt_of_not_le ha))
        simpa using this
      have h2 : 0 ≤ ⌊b⌋ := Int.floor_nonneg.mpr hb
      omega
    · rw [if_neg hb]
      exact Int.ceil_le_ceil hab

theorem floor_le_pyTrunc (q : ℚ) : ⌊q⌋ ≤ pyTrunc q := by
  unfold pyTrunc
  split
  · exact le_refl _
  · exact Int.floor_le_ceil q

theorem pyTrunc_le_floor_add_one (q : ℚ) : pyTrunc q ≤ ⌊q⌋ + 1 := by
  unfold pyTrunc
  split
  · omega
  · exact Int.ceil_le_floor_add_one q

theorem pyTrunc_min (a b : ℚ) : pyTrunc (min a b) = min (pyTrunc a) (pyTrunc b) :=
  pyTrunc_mono.map_min

theorem abs_sub_pyTrunc_lt_one (q : ℚ) : |q - (pyTrunc q : ℚ)| < 1 := by
  unfold pyTrunc
  split
  · rw [abs_of_nonneg (sub_nonneg.mpr (Int.floor_le q))]
    have := Int.lt_floor_add_one q
    linarith
  · rw [abs_of_nonpos (sub_nonpos.mpr (Int.le_ceil q))]
    have := Int.ceil_lt_add_one q
    linarith

@[simp] theorem upd_same {α : Type} (f : String → α) (k : String) (v : α) :
    upd f k v k = v := by
  simp [upd]

theorem upd_other {α : Type} (f : String → α) (k : String) (v : α) (x : String)
    (h : x ≠ k) : upd f k v x = f x := by
  simp [upd, h]

theorem pivotOutX_eq (w h : ℕ) (px py : ℤ) (c s : ℚ) :
    pivotOutX w h px py c s = px - pyTrunc (minRotX w h px py c s) := by
  unfold pivotOutX minRotX
  rw [pyTrunc_min, pyTrunc_min, pyTrunc_min]

theorem pivotOutY_eq (w h : ℕ) (px py : ℤ) (c s : ℚ) :
    pivotOutY w h px py c s = py - pyTrunc (minRotY w h px py c s) := by
  unfold pivotOutY minRotY
  rw [pyTrunc_min, pyTrunc_min, pyTrunc_min]

/-- C1 (code_bug evidence): the claimed placement guarantee fails on the
program.  For the second hand with its default Bottom pivot on a 10x100
scaled image at angle 90 degrees (cosine 0, sine 1), the code's analytic
anchor pivot_out = (1, 5) assumes the expanded image tightly bounds the
corners rotated about the pivot, but PIL rotate with expand=True applies its
centering translation (its documentation notes that expand assumes rotation
around the image center), which places the pivot at (50, 54) inside the
100x10 output; so placing the image with its top-left corner at
(center + offset - pivot_out) puts the pivot 49 pixels away from
center + offset on each axis (here center + offset = (150, 150)), far beyond
the claimed 1 pixel. -/
theorem C1_pivot_misplaced :
    resolvePivotSpec "second" none 10 100 = ((5 : ℤ), (99 : ℤ)) ∧
    pivotOutX 10 100 5 99 0 1 = 1 ∧
    pivotOutY 10 100 5 99 0 1 = 5 ∧
    pilExpandedW 10 100 5 99 0 1 = 100 ∧
    pilExpandedH 10 100 5 99 0 1 = 10 ∧
    pilPivotInExpandedX 10 100 5 99 0 1 = 50 ∧
    pilPivotInExpandedY 10 100 5 99 0 1 = 54 ∧
    ((150 : ℚ) - (pivotOutX 10 100 5 99 0 1 : ℚ) + pilPivotInExpandedX 10 100 5 99 0 1)
      - 150 = 49 ∧
    ((150 : ℚ) - (pivotOutY 10 100 5 99 0 1 : ℚ) + pilPivotInExpandedY 10 100 5 99 0 1)
      - 150 = 49 ∧
    ¬((49 : ℚ) ≤ 1) := by
  have h1 : pivotOutX 10 100 5 99 0 1 = 1 := by
    norm_num [pivotOutX, rotX, pyTrunc]
  have h2 : pivotOutY 10 100 5 99 0 1 = 5 := by
    norm_num [pivotOutY, rotY, pyTrunc]
  have h3 : pilExpandedW 10 100 5 99 0 1 = 100 := by
    norm_num [pilExpandedW, pilInvX]
  have h4 : pilExpandedH 10 100 5 99 0 1 = 10 := by
    norm_num [pilExpandedH, pilInvY]
  have h5 : pilPivotInExpandedX 10 100 5 99 0 1 = 50 := by
    unfold pilPivotInExpandedX
    rw [h3]
    norm_num
  have h6 : pilPivotInExpandedY 10 100 5 99 0 1 = 54 := by
    unfold pilPivotInExpandedY
    rw [h4]
    norm_num
  refine ⟨rfl, h1, h2, h3, h4, h5, h6, ?_, ?_, by norm_num⟩
  · rw [h1, h5]
    norm_num
  · rw [h2, h6]
    norm_num

theorem pyFloatMod_self (a b : ℚ) (hb : 0 < b) (h0 : 0 ≤ a) (h1 : a < b) :
    pyFloatMod a b = a := by
  unfold pyFloatMod
  have hz : ⌊a / b⌋ = 0 := by
    rw [Int.floor_eq_zero_iff, Set.mem_Ico]
    exact ⟨div_nonneg h0 hb.le, (div_lt_one hb).mpr h1⟩
  rw [hz]
  ring

/-- C2: the three hand angles equal the spec formulas (second and minute at 6
degrees per unit, hour at 30 degrees per hour mod 12 in 12-hour mode and 15
degrees per hour mod 24 otherwise), each lies in [0, 360), and the two
concrete instances 00:00:00 and 06:30:00 (12-hour) give (0,0,0) and
(195,180,0). -/
theorem C2_time_to_angles (ts : Timestamp) (use12 : Bool)
    (hh : ts.hour < 24) (hm : ts.minute < 60) (hs : ts.second < 60)
    (hu : ts.micro < 1000000) :
    (timeAngles ts use12).2.2 = ((ts.second : ℚ) + (ts.micro : ℚ) / 1000000) * 6 ∧
    (timeAngles ts use12).2.1 =
      ((ts.minute : ℚ) + ((ts.second : ℚ) + (ts.micro : ℚ) / 1000000) / 60) * 6 ∧
    (timeAngles ts use12).1 =
      ((if use12 then ((ts.hour % 12 : ℕ) : ℚ) else ((ts.hour % 24 : ℕ) : ℚ)) +
        ((ts.minute : ℚ) + ((ts.second : ℚ) + (ts.micro : ℚ) / 1000000) / 60) / 60) *
        (if use12 then 30 else 15) ∧
    0 ≤ (timeAngles ts use12).1 ∧ (timeAngles ts use12).1 < 360 ∧
    0 ≤ (timeAngles ts use12).2.1 ∧ (timeAngles ts use12).2.1 < 360 ∧
    0 ≤ (timeAngles ts use12).2.2 ∧ (timeAngles ts use12).2.2 < 360 ∧
    timeAngles ⟨0, 0, 0, 0⟩ true = (0, 0, 0) ∧
    timeAngles ⟨6, 30, 0, 0⟩ true = (195, 180, 0) := by
  have hmic0 : (0 : ℚ) ≤ (ts.micro : ℚ) / 1000000 := by positivity
  have hmic1 : (ts.micro : ℚ) / 1000000 < 1 := by
    rw [div_lt_one (by norm_num)]
    exact_mod_cast hu
  have hsec1 : (ts.second : ℚ) ≤ 59 := by exact_mod_cast Nat.lt_succ_iff.mp hs
  have hsec0 : (0 : ℚ) ≤ (ts.second : ℚ) := by positivity
  have hmin1 : (ts.minute : ℚ) ≤ 59 := by exact_mod_cast Nat.lt_succ_iff.mp hm
  have hmin0 : (0 : ℚ) ≤ (ts.minute : ℚ) := by positivity
  have hseclt : (ts.second : ℚ) + (ts.micro : ℚ) / 1000000 < 60 := by linarith
  have hsecge : (0 : ℚ) ≤ (ts.second : ℚ) + (ts.micro : ℚ) / 1000000 := by linarith
  have hmvlt : (ts.minute : ℚ) + ((ts.second : ℚ) + (ts.micro : ℚ) / 1000000) / 60 < 60 := by
    have : ((ts.second : ℚ) + (ts.micro : ℚ) / 1000000) / 60 < 1 := by
      rw [div_lt_one (by norm_num)]
      linarith
    linarith
  have hmvge : (0 : ℚ) ≤ (ts.minute : ℚ) + ((ts.second : ℚ) + (ts.micro : ℚ) / 1000000) / 60 := by
    positivity
  have h12 : ((ts.hour % 12 : ℕ) : ℚ) ≤ 11 := by
    exact_mod_cast Nat.lt_succ_iff.mp (Nat.mod_lt _ (by norm_num))
  have h120 : (0 : ℚ) ≤ ((ts.hour % 12 : ℕ) : ℚ) := by positivity
  have h24 : ((ts.hour % 24 : ℕ) : ℚ) ≤ 23 := by
    exact_mod_cast Nat.lt_succ_iff.mp (Nat.mod_lt _ (by norm_num))
  have h240 : (0 : ℚ) ≤ ((ts.hour % 24 : ℕ) : ℚ) := by positivity
  have hmvdiv : ((ts.minute : ℚ) + ((ts.second : ℚ) + (ts.micro : ℚ) / 1000000) / 60) / 60 < 1 := by
    rw [div_lt_one (by norm_num)]
    linarith
  have hmvdiv0 : (0 : ℚ) ≤ ((ts.minute : ℚ) + ((ts.second : ℚ) + (ts.micro : ℚ) / 1000000) / 60) / 60 := by
    positivity
  have hinst0 : timeAngles ⟨0, 0, 0, 0⟩ true = (0, 0, 0) := by
    norm_num [timeAngles, pyFloatMod, Prod.ext_iff]
  have hinst6 : timeAngles ⟨6, 30, 0, 0⟩ true = (195, 180, 0) := by
    norm_num [timeAngles, pyFloatMod, Prod.ext_iff]
  cases use12 with
  | false =>
    refine ⟨rfl, rfl, rfl, ?_, ?_, ?_, ?_, ?_, ?_, hinst0, hinst6⟩
    · show (0 : ℚ) ≤ (((ts.hour % 24 : ℕ) : ℚ) +
        ((ts.minute : ℚ) + ((ts.second : ℚ) + (ts.micro : ℚ) / 1000000) / 60) / 60) * 15
      positivity
    · show (((ts.hour % 24 : ℕ) : ℚ) +
        ((ts.minute : ℚ) + ((ts.second : ℚ) + (ts.micro : ℚ) / 1000000) / 60) / 60) * 15 < 360
      nlinarith
    · show (0 : ℚ) ≤ ((ts.minute : ℚ) + ((ts.second : ℚ) + (ts.micro : ℚ) / 1000000) / 60) * 6
      positivity
    · show ((ts.minute : ℚ) + ((ts.second : ℚ) + (ts.micro : ℚ) / 1000000) / 60) * 6 < 360
      linarith
    · show (0 : ℚ) ≤ ((ts.second : ℚ) + (ts.micro : ℚ) / 1000000) * 6
      positivity
    · show ((ts.second : ℚ) + (ts.micro : ℚ) / 1000000) * 6 < 360
      linarith
  | true =>
    have hmod : pyFloatMod (((ts.hour % 12 : ℕ) : ℚ) +
        ((ts.minute : ℚ) + ((ts.second : ℚ) + (ts.micro : ℚ) / 1000000) / 60) / 60) 12 =
        ((ts.hour % 12 : ℕ) : ℚ) +
        ((ts.minute : ℚ) + ((ts.second : ℚ) + (ts.micro : ℚ) / 1000000) / 60) / 60 := by
      refine pyFloatMod_self _ _ (by norm_num) (by positivity) ?_
      linarith
    have hfst : (timeAngles ts true).1 = pyFloatMod (((ts.hour % 12 : ℕ) : ℚ) +
        ((ts.minute : ℚ) + ((ts.second : ℚ) + (ts.micro : ℚ) / 1000000) / 60) / 60) 12 * 30 := rfl
    refine ⟨rfl, rfl, ?_, ?_, ?_, ?_, ?_, ?_, ?_, hinst0, hinst6⟩
    · rw [hfst, hmod]
      norm_num
    · rw [hfst, hmod]
      positivity
    · rw [hfst, hmod]
      nlinarith
    · show (0 : ℚ) ≤ ((ts.minute : ℚ) + ((ts.second : ℚ) + (ts.micro : ℚ) / 1000000) / 60) * 6
      positivity
    · show ((ts.minute : ℚ) + ((ts.second : ℚ) + (ts.micro : ℚ) / 1000000) / 60) * 6 < 360
      linarith
    · show (0 : ℚ) ≤ ((ts.second : ℚ) + (ts.micro : ℚ) / 1000000) * 6
      positivity
    · show ((ts.second : ℚ) + (ts.micro : ℚ) / 1000000) * 6 < 360
      linarith

/-- C2 witness: the theorem applied at 06:30:00 in 12-hour mode. -/
theorem C2_witness :
    (6 : ℕ) < 24 ∧ (30 : ℕ) < 60 ∧
    timeAngles ⟨6, 30, 0, 0⟩ true = (195, 180, 0) :=
  ⟨by decide, by decide,
    (C2_time_to_angles ⟨6, 30, 0, 0⟩ true (by decide) (by decide) (by decide)
      (by decide)).2.2.2.2.2.2.2.2.2.2⟩

/-- C3: the claim that loading never raises fails on the code.  A missing or
unparsable file is handled (first two conjuncts, matching the intended
fallback), but a well-formed JSON file whose document is the number 5 makes
`"hour" in data` raise TypeError, which the except clause
(JSONDecodeError, OSError) does not catch, so it propagates to the caller. -/
theorem C3_load_geometry :
    loadHandPivots GeomFile.missing = Except.ok ⟨[], []⟩ ∧
    loadHandPivots GeomFile.badParse = Except.ok ⟨[], []⟩ ∧
    loadHandPivots (GeomFile.parsed (JValue.num 5)) = Except.error PyExc.typeError :=
  ⟨rfl, rfl, rfl⟩

theorem bakeInPivot_eq (cosO sinO : ℚ → ℚ) (s1 : ClockState) (element : String)
    (d : ℤ × ℤ) (hoff : getOffset s1 element = d) (hne : d ≠ ((0, 0) : ℤ × ℤ))
    (hud : s1.useDigital = false) (hhc : s1.hasCanvas = true)
    (hhh : s1.hasHandImages = true) (xy : ℚ × ℚ)
    (hcp : computePivotFromOffset cosO sinO s1 element d.1 d.2 = some xy) :
    bakeInPivot cosO sinO s1 element =
      { s1 with
          handPivots := upd s1.handPivots element (some (PivotSpec.frac xy.1 xy.2)),
          elementOffsets := upd s1.elementOffsets element (some (0, 0)) } := by
  unfold bakeInPivot
  rw [hoff, if_pos ⟨hne, hud, hhc, hhh⟩, hcp]

theorem setDragDrop_disable_eq (cosO sinO : ℚ → ℚ) (s : ClockState) (element : String)
    (h : element = "hour" ∨ element = "minute" ∨ element = "second") :
    setDragDrop cosO sinO s element false =
      persistIfAnalog (bakeInPivot cosO sinO
        { s with dragDrop := upd s.dragDrop element (some false) } element) := by
  unfold setDragDrop
  rw [if_neg (by simp), if_pos h]

theorem persistIfAnalog_eq (s2 : ClockState) (h : s2.useDigital = false) :
    persistIfAnalog s2 =
      { s2 with persisted := saveGeometry s2.handPivots s2.elementOffsets } := by
  unfold persistIfAnalog
  rw [if_pos h]

theorem computePivot_of_info (cosO sinO : ℚ → ℚ) (s : ClockState) (name : String)
    (W H : ℕ) (px py : ℤ) (ang : ℚ)
    (hinfo : handTransformInfo s name (getClockDimensions s).1 = some (W, H, px, py, ang))
    (dx dy : ℤ) :
    computePivotFromOffset cosO sinO s name dx dy =
      some (max (1/1000) (min (999/1000)
              (((px : ℚ) + (-(dx : ℚ) * cosO ang - (dy : ℚ) * sinO ang)) / (W : ℚ))),
            max (1/1000) (min (999/1000)
              (((py : ℚ) + ((dx : ℚ) * sinO ang - (dy : ℚ) * cosO ang)) / (H : ℚ)))) := by
  unfold computePivotFromOffset
  rw [hinfo]

theorem info_dims_pos (s : ClockState) (name : String) (radius : ℕ)
    (W H : ℕ) (px py : ℤ) (ang : ℚ)
    (hinfo : handTransformInfo s name radius = some (W, H, px, py, ang)) :
    1 ≤ W ∧ 1 ≤ H := by
  unfold handTransformInfo at hinfo
  cases hHI : (if s.hasHandImages then s.handImages name else none) with
  | none =>
    rw [hHI] at hinfo
    exact absurd hinfo (by simp)
  | some wh =>
    rw [hHI] at hinfo
    simp only [Option.some.injEq, Prod.mk.injEq] at hinfo
    obtain ⟨hW, hH, -⟩ := hinfo
    constructor
    · rw [← hW]
      exact le_max_left 1 _
    · rw [← hH]
      exact le_max_left 1 _

/-- C4 (amended): disabling drag-drop for a hand with a nonzero offset bakes
the offset into a ratio pivot (the inverse-rotated offset vector added to the
current pivot, divided by the scaled dimensions) and resets the offset to
(0, 0), and the geometry is persisted; provided the derived ratios lie inside
the clamp range [0.001, 0.999], re-rendering with the new pivot and zero
offset reproduces the visual position of every image point to within 2 pixels
per axis (the int() truncation of the pivot, carried through the rotation).
The conversion uses the cosine c and sine s of the hand angle, with
c^2 + s^2 = 1. -/
theorem C4_bake_in (cosO sinO : ℚ → ℚ) (s : ClockState) (name : String)
    (hname : name = "hour" ∨ name = "minute" ∨ name = "second")
    (hdig : s.useDigital = false) (hcv : s.hasCanvas = true) (hhi : s.hasHandImages = true)
    (W H : ℕ) (px py : ℤ) (ang : ℚ)
    (hinfo : handTransformInfo s name (getClockDimensions s).1 = some (W, H, px, py, ang))
    (dx dy : ℤ) (hoff : getOffset s name = (dx, dy)) (hnz : (dx, dy) ≠ ((0, 0) : ℤ × ℤ))
    (c sn : ℚ) (hc : cosO ang = c) (hsn : sinO ang = sn) (hunit : c ^ 2 + sn ^ 2 = 1)
    (nx ny : ℚ) (hnx : nx = (px : ℚ) + (-(dx : ℚ) * c - (dy : ℚ) * sn))
    (hny : ny = (py : ℚ) + ((dx : ℚ) * sn - (dy : ℚ) * c))
    (hx1 : 1/1000 ≤ nx / (W : ℚ)) (hx2 : nx / (W : ℚ) ≤ 999/1000)
    (hy1 : 1/1000 ≤ ny / (H : ℚ)) (hy2 : ny / (H : ℚ) ≤ 999/1000) :
    getOffset (setDragDrop cosO sinO s name false) name = (0, 0) ∧
    (setDragDrop cosO sinO s name false).handPivots name =
      some (PivotSpec.frac (nx / (W : ℚ)) (ny / (H : ℚ))) ∧
    (setDragDrop cosO sinO s name false).persisted =
      saveGeometry (setDragDrop cosO sinO s name false).handPivots
        (setDragDrop cosO sinO s name false).elementOffsets ∧
    ∀ (cx cy : ℤ) (qx qy : ℚ),
      |idealPosX cx 0 (resolvePivotSpec name
          ((setDragDrop cosO sinO s name false).handPivots name) W H) c sn qx qy -
        idealPosX cx dx (px, py) c sn qx qy| ≤ 2 ∧
      |idealPosY cy 0 (resolvePivotSpec name
          ((setDragDrop cosO sinO s name false).handPivots name) W H) c sn qx qy -
        idealPosY cy dy (px, py) c sn qx qy| ≤ 2 := by
  subst hc hsn hnx hny
  have hW1 : 1 ≤ W := (info_dims_pos s name _ W H px py ang hinfo).1
  have hH1 : 1 ≤ H := (info_dims_pos s name _ W H px py ang hinfo).2
  have hWQ : ((W : ℚ)) ≠ 0 := by
    have : (0 : ℚ) < (W : ℚ) := by exact_mod_cast hW1
    exact ne_of_gt this
  have hHQ : ((H : ℚ)) ≠ 0 := by
    have : (0 : ℚ) < (H : ℚ) := by exact_mod_cast hH1
    exact ne_of_gt this
  -- the state after updating the drag flag, as built inside set_drag_drop
  have hinfo1 : handTransformInfo
      { s with dragDrop := upd s.dragDrop name (some false) } name
      (getClockDimensions { s with dragDrop := upd s.dragDrop name (some false) }).1 =
      some (W, H, px, py, ang) := hinfo
  have hcp := computePivot_of_info cosO sinO
    { s with dragDrop := upd s.dragDrop name (some false) } name W H px py ang hinfo1 dx dy
  have hclx : max (1/1000 : ℚ) (min (999/1000)
      (((px : ℚ) + (-(dx : ℚ) * cosO ang - (dy : ℚ) * sinO ang)) / (W : ℚ))) =
      ((px : ℚ) + (-(dx : ℚ) * cosO ang - (dy : ℚ) * sinO ang)) / (W : ℚ) := by
    rw [min_eq_right hx2, max_eq_right hx1]
  have hcly : max (1/1000 : ℚ) (min (999/1000)
      (((py : ℚ) + ((dx : ℚ) * sinO ang - (dy : ℚ) * cosO ang)) / (H : ℚ))) =
      ((py : ℚ) + ((dx : ℚ) * sinO ang - (dy : ℚ) * cosO ang)) / (H : ℚ) := by
    rw [min_eq_right hy2, max_eq_right hy1]
  rw [hclx, hcly] at hcp
  have hbake : bakeInPivot cosO sinO
      { s with dragDrop := upd s.dragDrop name (some false) } name =
      { s with
          dragDrop := upd s.dragDrop name (some false),
          handPivots := upd s.handPivots name
            (some (PivotSpec.frac
              (((px : ℚ) + (-(dx : ℚ) * cosO ang - (dy : ℚ) * sinO ang)) / (W : ℚ))
              (((py : ℚ) + ((dx : ℚ) * sinO ang - (dy : ℚ) * cosO ang)) / (H : ℚ)))),
          elementOffsets := upd s.elementOffsets name (some (0, 0)) } := by
    unfold bakeInPivot
    have hoff1 : getOffset { s with dragDrop := upd s.dragDrop name (some false) } name =
        (dx, dy) := hoff
    rw [hoff1, if_pos ⟨hnz, hdig, hcv, hhi⟩, hcp]
  have hsd : setDragDrop cosO sinO s name false =
      { s with
          dragDrop := upd s.dragDrop name (some false),
          handPivots := upd s.handPivots name
            (some (PivotSpec.frac
              (((px : ℚ) + (-(dx : ℚ) * cosO ang - (dy : ℚ) * sinO ang)) / (W : ℚ))
              (((py : ℚ) + ((dx : ℚ) * sinO ang - (dy : ℚ) * cosO ang)) / (H : ℚ)))),
          elementOffsets := upd s.elementOffsets name (some (0, 0)),
          persisted := saveGeometry
            (upd s.handPivots name
              (some (PivotSpec.frac
                (((px : ℚ) + (-(dx : ℚ) * cosO ang - (dy : ℚ) * sinO ang)) / (W : ℚ))
                (((py : ℚ) + ((dx : ℚ) * sinO ang - (dy : ℚ) * cosO ang)) / (H : ℚ)))))
            (upd s.elementOffsets name (some (0, 0))) } := by
    unfold setDragDrop
    rw [if_neg (by simp), if_pos hname, hbake]
    unfold persistIfAnalog
    rw [if_pos hdig]
  refine ⟨?_, ?_, ?_, ?_⟩
  · rw [hsd]
    show (upd s.elementOffsets name (some (0, 0)) name).getD (0, 0) = (0, 0)
    rw [upd_same]
    rfl
  · rw [hsd]
    show upd s.handPivots name _ name = _
    rw [upd_same]
  · rw [hsd]
  · intro cx cy qx qy
    have hpiv : resolvePivotSpec name
        ((setDragDrop cosO sinO s name false).handPivots name) W H =
        (pyTrunc ((px : ℚ) + (-(dx : ℚ) * cosO ang - (dy : ℚ) * sinO ang)),
         pyTrunc ((py : ℚ) + ((dx : ℚ) * sinO ang - (dy : ℚ) * cosO ang))) := by
      rw [hsd]
      show resolvePivotSpec name (upd s.handPivots name _ name) W H = _
      rw [upd_same]
      unfold resolvePivotSpec
      show (pyTrunc ((W : ℚ) * (_ / (W : ℚ))), pyTrunc ((H : ℚ) * (_ / (H : ℚ)))) = _
      rw [mul_div_cancel₀ _ hWQ, mul_div_cancel₀ _ hHQ]
    rw [hpiv]
    set nx := (px : ℚ) + (-(dx : ℚ) * cosO ang - (dy : ℚ) * sinO ang) with hnxd
    set ny := (py : ℚ) + ((dx : ℚ) * sinO ang - (dy : ℚ) * cosO ang) with hnyd
    have hex : |nx - (pyTrunc nx : ℚ)| ≤ 1 := le_of_lt (abs_sub_pyTrunc_lt_one nx)
    have hey : |ny - (pyTrunc ny : ℚ)| ≤ 1 := le_of_lt (abs_sub_pyTrunc_lt_one ny)
    have hcb : |cosO ang| ≤ 1 := by nlinarith [sq_abs (cosO ang), abs_nonneg (cosO ang), sq_nonneg (sinO ang)]
    have hsb : |sinO ang| ≤ 1 := by nlinarith [sq_abs (sinO ang), abs_nonneg (sinO ang), sq_nonneg (cosO ang)]
    constructor
    · have key : idealPosX cx 0
          (pyTrunc nx, pyTrunc ny) (cosO ang) (sinO ang) qx qy -
          idealPosX cx dx (px, py) (cosO ang) (sinO ang) qx qy =
          (nx - (pyTrunc nx : ℚ)) * cosO ang - (ny - (pyTrunc ny : ℚ)) * sinO ang := by
        unfold idealPosX
        rw [hnxd, hnyd]
        push_cast
        linear_combination (dx : ℚ) * hunit
      rw [key]
      calc |(nx - (pyTrunc nx : ℚ)) * cosO ang - (ny - (pyTrunc ny : ℚ)) * sinO ang|
          ≤ |(nx - (pyTrunc nx : ℚ)) * cosO ang| + |(ny - (pyTrunc ny : ℚ)) * sinO ang| :=
            abs_sub _ _
        _ = |nx - (pyTrunc nx : ℚ)| * |cosO ang| + |ny - (pyTrunc ny : ℚ)| * |sinO ang| := by
            rw [abs_mul, abs_mul]
        _ ≤ 1 + 1 := by
            apply add_le_add
            · exact mul_le_one₀ hex (abs_nonneg _) hcb
            · exact mul_le_one₀ hey (abs_nonneg _) hsb
        _ = 2 := by norm_num
    · have key : idealPosY cy 0
          (pyTrunc nx, pyTrunc ny) (cosO ang) (sinO ang) qx qy -
          idealPosY cy dy (px, py) (cosO ang) (sinO ang) qx qy =
          (nx - (pyTrunc nx : ℚ)) * sinO ang + (ny - (pyTrunc ny : ℚ)) * cosO ang := by
        unfold idealPosY
        rw [hnxd, hnyd]
        push_cast
        linear_combination (dy : ℚ) * hunit
      rw [key]
      calc |(nx - (pyTrunc nx : ℚ)) * sinO ang + (ny - (pyTrunc ny : ℚ)) * cosO ang|
          ≤ |(nx - (pyTrunc nx : ℚ)) * sinO ang| + |(ny - (pyTrunc ny : ℚ)) * cosO ang| :=
            abs_add _ _
        _ = |nx - (pyTrunc nx : ℚ)| * |sinO ang| + |ny - (pyTrunc ny : ℚ)| * |cosO ang| := by
            rw [abs_mul, abs_mul]
        _ ≤ 1 + 1 := by
            apply add_le_add
            · exact mul_le_one₀ hex (abs_nonneg _) hsb
            · exact mul_le_one₀ hey (abs_nonneg _) hcb
        _ = 2 := by norm_num

/-- C4 witness: the bake-in theorem applied to a concrete 10-by-10 hour hand
with centered pivot, offset (-5, -7) and angle 0. -/
theorem C4_witness :
    getOffset (setDragDrop oracleOne oracleZero c4wState "hour" false) "hour" = (0, 0) ∧
    (setDragDrop oracleOne oracleZero c4wState "hour" false).handPivots "hour" =
      some (PivotSpec.frac (35 / (60 : ℚ)) (37 / (60 : ℚ))) := by
  have hinfo : handTransformInfo c4wState "hour" (getClockDimensions c4wState).1 =
      some (60, 60, 30, 30, 0) := by
    norm_num [handTransformInfo, getClockDimensions, scaledDims, resolvePivotSpec,
      handAngle, timeAngles, pyFloatMod, pyTrunc, scaleFac, c4wState, baseState,
      Int.toNat_ofNat, Prod.ext_iff]
    refine ⟨by decide, ?_⟩
    rw [show Int.toNat 60 = 60 from by decide]
    norm_num
  have h := C4_bake_in oracleOne oracleZero c4wState "hour" (Or.inl rfl) rfl rfl rfl
    60 60 30 30 0 hinfo (-5) (-7) (by decide) (by decide) 1 0 rfl rfl (by norm_num)
    35 37 (by norm_num) (by norm_num)
    (by norm_num) (by norm_num) (by norm_num) (by norm_num)
  refine ⟨h.1, ?_⟩
  rw [h.2.1]
  norm_num

/-- C4 counterexample to the claim as stated: with the same hand dragged by
(-3000, 0), the derived pivot ratio 50.5 is clamped to 0.999, so after
bake-in the re-rendered pivot lands 2971 pixels away from where the hand was
before -- the round-trip fails far beyond any rounding tolerance. -/
theorem C4_cex :
    getOffset (setDragDrop oracleOne oracleZero c4xState "hour" false) "hour" = (0, 0) ∧
    (setDragDrop oracleOne oracleZero c4xState "hour" false).handPivots "hour" =
      some (PivotSpec.frac (999/1000) (1/2)) ∧
    |idealPosX 150 0
        (resolvePivotSpec "hour"
          ((setDragDrop oracleOne oracleZero c4xState "hour" false).handPivots "hour") 60 60)
        1 0 30 30 -
      idealPosX 150 (-3000) ((30, 30) : ℤ × ℤ) 1 0 30 30| = 2971 ∧
    ¬(|idealPosX 150 0
        (resolvePivotSpec "hour"
          ((setDragDrop oracleOne oracleZero c4xState "hour" false).handPivots "hour") 60 60)
        1 0 30 30 -
      idealPosX 150 (-3000) ((30, 30) : ℤ × ℤ) 1 0 30 30| ≤ 2) := by
  have hinfo : handTransformInfo c4xState "hour" (getClockDimensions c4xState).1 =
      some (60, 60, 30, 30, 0) := by
    norm_num [handTransformInfo, getClockDimensions, scaledDims, resolvePivotSpec,
      handAngle, timeAngles, pyFloatMod, pyTrunc, scaleFac, c4xState, baseState,
      Int.toNat_ofNat, Prod.ext_iff]
    refine ⟨by decide, ?_⟩
    rw [show Int.toNat 60 = 60 from by decide]
    norm_num
  have hinfo1 : handTransformInfo
      { c4xState with dragDrop := upd c4xState.dragDrop "hour" (some false) } "hour"
      (getClockDimensions
        { c4xState with dragDrop := upd c4xState.dragDrop "hour" (some false) }).1 =
      some (60, 60, 30, 30, 0) := hinfo
  have hcp := computePivot_of_info oracleOne oracleZero
    { c4xState with dragDrop := upd c4xState.dragDrop "hour" (some false) } "hour"
    60 60 30 30 0 hinfo1 (-3000) 0
  have hcp2 : computePivotFromOffset oracleOne oracleZero
      { c4xState with dragDrop := upd c4xState.dragDrop "hour" (some false) } "hour"
      (-3000) 0 = some (999/1000, 1/2) := by
    rw [hcp]
    norm_num [oracleOne, oracleZero, Prod.ext_iff]
  have hoff1 : getOffset
      { c4xState with dragDrop := upd c4xState.dragDrop "hour" (some false) } "hour" =
      (-3000, 0) := by decide
  have hbake := bakeInPivot_eq oracleOne oracleZero
    { c4xState with dragDrop := upd c4xState.dragDrop "hour" (some false) } "hour"
    (-3000, 0) hoff1 (by decide) rfl rfl rfl (999/1000, 1/2) hcp2
  have hsd : setDragDrop oracleOne oracleZero c4xState "hour" false =
      { c4xState with
          dragDrop := upd c4xState.dragDrop "hour" (some false),
          handPivots := upd c4xState.handPivots "hour"
            (some (PivotSpec.frac (999/1000) (1/2))),
          elementOffsets := upd c4xState.elementOffsets "hour" (some (0, 0)),
          persisted := saveGeometry
            (upd c4xState.handPivots "hour" (some (PivotSpec.frac (999/1000) (1/2))))
            (upd c4xState.elementOffsets "hour" (some (0, 0))) } := by
    rw [setDragDrop_disable_eq oracleOne oracleZero c4xState "hour" (Or.inl rfl), hbake,
      persistIfAnalog_eq _ rfl]
  have hpiv : (setDragDrop oracleOne oracleZero c4xState "hour" false).handPivots "hour" =
      some (PivotSpec.frac (999/1000) (1/2)) := by
    rw [hsd]
    simp [upd]
  have hres : resolvePivotSpec "hour"
      ((setDragDrop oracleOne oracleZero c4xState "hour" false).handPivots "hour") 60 60 =
      ((59 : ℤ), (30 : ℤ)) := by
    rw [hpiv]
    unfold resolvePivotSpec
    norm_num [pyTrunc, Prod.ext_iff]
  refine ⟨?_, hpiv, ?_, ?_⟩
  · rw [hsd]
    show (upd c4xState.elementOffsets "hour" (some (0, 0)) "hour").getD (0, 0) = (0, 0)
    rw [upd_same]
    rfl
  · rw [hres]
    norm_num [idealPosX]
  · rw [hres]
    norm_num [idealPosX]

/-- C5: resize-mode adjustment adds the delta and clamps to [0.1, 5.0]; five
consecutive +0.1 steps from the default 1.0 give exactly 1.5; direct setting
clamps only from below at 0.1 with no upper bound. -/
theorem C5_scale_clamps (s : ClockState) (e : String) (delta v : ℚ)
    (hmode : s.resizeModeElement = some e) :
    (adjustResizeScale s delta).1 = true ∧
    ((adjustResizeScale s delta).2.scaleOverride e).getD 1 =
      max (1/10) (min 5 ((s.scaleOverride e).getD 1 + delta)) ∧
    1/10 ≤ ((adjustResizeScale s delta).2.scaleOverride e).getD 1 ∧
    ((adjustResizeScale s delta).2.scaleOverride e).getD 1 ≤ 5 ∧
    ((setElementScale s e v).scaleOverride e).getD 1 = max (1/10) v ∧
    (1/10 ≤ v → ((setElementScale s e v).scaleOverride e).getD 1 = v) ∧
    ((adjustResizeScale (adjustResizeScale (adjustResizeScale (adjustResizeScale
        (adjustResizeScale c5State (1/10)).2 (1/10)).2 (1/10)).2 (1/10)).2
        (1/10)).2.scaleOverride "hour").getD 1 = 3/2 := by
  have hval : ((adjustResizeScale s delta).2.scaleOverride e).getD 1 =
      max (1/10) (min 5 ((s.scaleOverride e).getD 1 + delta)) := by
    unfold adjustResizeScale
    rw [hmode]
    simp [upd]
  refine ⟨?_, hval, ?_, ?_, ?_, ?_, ?_⟩
  · unfold adjustResizeScale
    rw [hmode]
  · rw [hval]
    exact le_max_left _ _
  · rw [hval]
    exact max_le (by norm_num) (min_le_left _ _)
  · unfold setElementScale
    simp [upd]
  · intro hv
    unfold setElementScale
    simp only [upd_same, Option.getD_some]
    exact max_eq_right hv
  · norm_num [adjustResizeScale, c5State, baseState, upd]

/-- C5 witness: the resize theorem applied at the hour hand with delta 0.1. -/
theorem C5_witness :
    c5State.resizeModeElement = some "hour" ∧
    ((adjustResizeScale c5State (1/10)).2.scaleOverride "hour").getD 1 =
      max (1/10) (min 5 ((c5State.scaleOverride "hour").getD 1 + 1/10)) :=
  ⟨rfl, (C5_scale_clamps c5State "hour" (1/10) 7 rfl).2.1⟩

theorem rescaleOffsetKey_other (sx sy : ℚ) (f : String → Option (ℤ × ℤ))
    (key k : String) (h : k ≠ key) : rescaleOffsetKey sx sy f key k = f k := by
  unfold rescaleOffsetKey
  split
  · exact upd_other f key _ k h
  · rfl

theorem rescaleOffsetKey_self_nz (sx sy : ℚ) (f : String → Option (ℤ × ℤ))
    (key : String) (h : (f key).getD (0, 0) ≠ ((0, 0) : ℤ × ℤ)) :
    rescaleOffsetKey sx sy f key key =
      some (pyRound ((((f key).getD (0, 0)).1 : ℚ) * sx),
            pyRound ((((f key).getD (0, 0)).2 : ℚ) * sy)) := by
  unfold rescaleOffsetKey
  rw [if_pos h, upd_same]

theorem rescaleOffsetKey_self_z (sx sy : ℚ) (f : String → Option (ℤ × ℤ))
    (key : String) (h : (f key).getD (0, 0) = ((0, 0) : ℤ × ℤ)) :
    rescaleOffsetKey sx sy f key = f := by
  unfold rescaleOffsetKey
  rw [if_neg (not_not_intro h)]

theorem rescaleAll_value (sx sy : ℚ) (f : String → Option (ℤ × ℤ)) (key : String)
    (hkey : key = "face" ∨ key = "hour" ∨ key = "minute" ∨ key = "second") :
    (rescaleAllOffsets sx sy f key).getD (0, 0) =
      (if (f key).getD (0, 0) = ((0, 0) : ℤ × ℤ) then ((0, 0) : ℤ × ℤ)
       else (pyRound ((((f key).getD (0, 0)).1 : ℚ) * sx),
             pyRound ((((f key).getD (0, 0)).2 : ℚ) * sy))) := by
  have hone : ∀ (g : String → Option (ℤ × ℤ)) (k : String),
      (rescaleOffsetKey sx sy g k k).getD (0, 0) =
        (if (g k).getD (0, 0) = ((0, 0) : ℤ × ℤ) then ((0, 0) : ℤ × ℤ)
         else (pyRound ((((g k).getD (0, 0)).1 : ℚ) * sx),
               pyRound ((((g k).getD (0, 0)).2 : ℚ) * sy))) := by
    intro g k
    by_cases hz : (g k).getD (0, 0) = ((0, 0) : ℤ × ℤ)
    · rw [if_pos hz, rescaleOffsetKey_self_z sx sy g k hz, hz]
    · rw [if_neg hz, rescaleOffsetKey_self_nz sx sy g k hz]
      rfl
  rcases hkey with rfl | rfl | rfl | rfl
  · unfold rescaleAllOffsets
    rw [rescaleOffsetKey_other _ _ _ "second" "face" (by decide),
        rescaleOffsetKey_other _ _ _ "minute" "face" (by decide),
        rescaleOffsetKey_other _ _ _ "hour" "face" (by decide)]
    exact hone f "face"
  · unfold rescaleAllOffsets
    rw [rescaleOffsetKey_other _ _ _ "second" "hour" (by decide),
        rescaleOffsetKey_other _ _ _ "minute" "hour" (by decide),
        hone _ "hour", rescaleOffsetKey_other _ _ _ "face" "hour" (by decide)]
  · unfold rescaleAllOffsets
    rw [rescaleOffsetKey_other _ _ _ "second" "minute" (by decide),
        hone _ "minute", rescaleOffsetKey_other _ _ _ "hour" "minute" (by decide),
        rescaleOffsetKey_other _ _ _ "face" "minute" (by decide)]
  · unfold rescaleAllOffsets
    rw [hone _ "second", rescaleOffsetKey_other _ _ _ "minute" "second" (by decide),
        rescaleOffsetKey_other _ _ _ "hour" "second" (by decide),
        rescaleOffsetKey_other _ _ _ "face" "second" (by decide)]

theorem onCanvasConfigure_eq (s : ClockState) (ow oh ew eh : ℤ)
    (hlast : s.lastCanvasSize = some (ow, oh)) (how : 0 < ow) (hoh : 0 < oh)
    (hew : 1 ≤ ew) (heh : 1 ≤ eh) :
    onCanvasConfigure s ew eh =
      { s with
          elementOffsets := rescaleAllOffsets ((ew : ℚ) / (ow : ℚ)) ((eh : ℚ) / (oh : ℚ))
            s.elementOffsets,
          persisted := saveGeometry s.handPivots
            (rescaleAllOffsets ((ew : ℚ) / (ow : ℚ)) ((eh : ℚ) / (oh : ℚ))
              s.elementOffsets),
          lastCanvasSize := some (ew, eh) } := by
  have hnw : max (1 : ℤ) ew = ew := max_eq_right hew
  have hnh : max (1 : ℤ) eh = eh := max_eq_right heh
  simp only [onCanvasConfigure, hlast, hnw, hnh]
  rw [if_pos ⟨how, hoh⟩]

/-- C6: a canvas resize with a known positive previous size multiplies every
nonzero element offset componentwise by the dimension ratios with Python
rounding, leaves zero offsets at zero, persists the geometry, records the new
size, and the concrete instance (40, 20) at 300x300 resized to 600x450 gives
(80, 30). -/
theorem C6_canvas_resize (s : ClockState) (ow oh ew eh : ℤ)
    (hlast : s.lastCanvasSize = some (ow, oh)) (how : 0 < ow) (hoh : 0 < oh)
    (hew : 1 ≤ ew) (heh : 1 ≤ eh) :
    (∀ key, key = "face" ∨ key = "hour" ∨ key = "minute" ∨ key = "second" →
      getOffset (onCanvasConfigure s ew eh) key =
        (if getOffset s key = ((0, 0) : ℤ × ℤ) then ((0, 0) : ℤ × ℤ)
         else (pyRound (((getOffset s key).1 : ℚ) * ((ew : ℚ) / (ow : ℚ))),
               pyRound (((getOffset s key).2 : ℚ) * ((eh : ℚ) / (oh : ℚ)))))) ∧
    (onCanvasConfigure s ew eh).persisted =
      saveGeometry (onCanvasConfigure s ew eh).handPivots
        (onCanvasConfigure s ew eh).elementOffsets ∧
    (onCanvasConfigure s ew eh).lastCanvasSize = some (ew, eh) ∧
    getOffset (onCanvasConfigure c6iState 600 450) "hour" = (80, 30) := by
  have hcfg := onCanvasConfigure_eq s ow oh ew eh hlast how hoh hew heh
  refine ⟨?_, ?_, ?_, ?_⟩
  · intro key hkey
    rw [hcfg]
    exact rescaleAll_value _ _ s.elementOffsets key hkey
  · rw [hcfg]
  · rw [hcfg]
  · have hc6 := onCanvasConfigure_eq c6iState 300 300 600 450 rfl (by norm_num)
      (by norm_num) (by norm_num) (by norm_num)
    rw [hc6]
    have hv := rescaleAll_value (((600 : ℤ) : ℚ) / ((300 : ℤ) : ℚ))
      (((450 : ℤ) : ℚ) / ((300 : ℤ) : ℚ)) c6iState.elementOffsets "hour"
      (Or.inr (Or.inl rfl))
    show (rescaleAllOffsets (((600 : ℤ) : ℚ) / ((300 : ℤ) : ℚ))
        (((450 : ℤ) : ℚ) / ((300 : ℤ) : ℚ)) c6iState.elementOffsets "hour").getD (0, 0) =
      (80, 30)
    rw [hv]
    norm_num [c6iState, baseState, pyRound, Prod.ext_iff]

/-- C6 witness: the resize theorem applied to the concrete 300x300 state
with hour offset (40, 20) and a 600x450 configure event. -/
theorem C6_witness :
    c6iState.lastCanvasSize = some (300, 300) ∧
    getOffset (onCanvasConfigure c6iState 600 450) "hour" = (80, 30) :=
  ⟨rfl, (C6_canvas_resize c6iState 300 300 600 450 rfl (by norm_num) (by norm_num)
    (by norm_num) (by norm_num)).2.2.2⟩

theorem bakeInPivot_useDigital (cosO sinO : ℚ → ℚ) (s1 : ClockState) (e : String) :
    (bakeInPivot cosO sinO s1 e).useDigital = s1.useDigital := by
  unfold bakeInPivot
  split
  · split <;> rfl
  · rfl

/-- C7 (amended): pointer-up (Clock._on_canvas_release) only clears the drag
target and writes nothing to disk, so the on-disk record can differ from the
in-memory offsets after a drag-release; the record is written instead when
drag-drop is disabled for a hand element in analog mode (and on canvas
resize, per the resize theorem). -/
theorem C7_release_persistence (s : ClockState) :
    (onCanvasRelease s).persisted = s.persisted ∧
    (onCanvasRelease s).elementOffsets = s.elementOffsets ∧
    (onCanvasRelease s).dragTarget = none ∧
    (∀ (cosO sinO : ℚ → ℚ) (e : String),
      e = "hour" ∨ e = "minute" ∨ e = "second" → s.useDigital = false →
      (setDragDrop cosO sinO s e false).persisted =
        saveGeometry (setDragDrop cosO sinO s e false).handPivots
          (setDragDrop cosO sinO s e false).elementOffsets) := by
  refine ⟨rfl, rfl, rfl, ?_⟩
  intro cosO sinO e he hdig
  rw [setDragDrop_disable_eq cosO sinO s e he]
  have hud : (bakeInPivot cosO sinO
      { s with dragDrop := upd s.dragDrop e (some false) } e).useDigital = false := by
    rw [bakeInPivot_useDigital]
    exact hdig
  rw [persistIfAnalog_eq _ hud]

/-- C7 witness: release clears the drag target on the base state, and
disabling drag-drop for the hour hand persists the record. -/
theorem C7_witness :
    (onCanvasRelease baseState).dragTarget = none ∧
    (setDragDrop oracleOne oracleZero baseState "hour" false).persisted =
      saveGeometry (setDragDrop oracleOne oracleZero baseState "hour" false).handPivots
        (setDragDrop oracleOne oracleZero baseState "hour" false).elementOffsets := by
  have h := C7_release_persistence baseState
  exact ⟨h.2.2.1, h.2.2.2 oracleOne oracleZero "hour" (Or.inl rfl) rfl⟩

/-- C7 counterexample to the claim as stated: dragging the hour hand by
(5, 7) and releasing leaves the in-memory offset at (5, 7) while the on-disk
record still holds (0, 0) -- nothing is written at pointer-up. -/
theorem C7_cex :
    getOffset (onCanvasRelease (onCanvasDrag (onCanvasClick c7State (some "hour") 0 0) 5 7))
      "hour" = (5, 7) ∧
    (onCanvasRelease (onCanvasDrag (onCanvasClick c7State (some "hour") 0 0)
      5 7)).persisted.offsets "hour" = (0, 0) ∧
    ((5, 7) : ℤ × ℤ) ≠ ((0, 0) : ℤ × ℤ) :=
  ⟨by decide, by decide, by decide⟩

/-- C8 (amended): the uniform resize factor divides by max(1, max(w, h))
(equal to max(w, h) for nonempty images), the scaled bounding box uses int()
truncation (not round) clamped below at 1, and pivots resolve as: Bottom to
(w Math.floordiv 2, h - 1), Ratio to truncated products, the explicit center
tag to the box center, while an unset pivot falls back to the per-hand
defaults (hour/minute Ratio(0.5, 0.82), second Bottom). -/
theorem C8_transform_engine (iw ih : ℕ) (target : ℚ) (hiw : 1 ≤ iw) (hih : 1 ≤ ih)
    (name : String) (W H : ℕ) (x y : ℚ) :
    scaledDims iw ih target =
      (max 1 (pyTrunc ((iw : ℚ) * (target / ((max iw ih : ℕ) : ℚ)))).toNat,
       max 1 (pyTrunc ((ih : ℚ) * (target / ((max iw ih : ℕ) : ℚ)))).toNat) ∧
    resolvePivotSpec name (some PivotSpec.bottom) W H = (((W / 2 : ℕ) : ℤ), (H : ℤ) - 1) ∧
    resolvePivotSpec name (some (PivotSpec.frac x y)) W H =
      (pyTrunc ((W : ℚ) * x), pyTrunc ((H : ℚ) * y)) ∧
    resolvePivotSpec name (some PivotSpec.center) W H =
      (((W / 2 : ℕ) : ℤ), ((H / 2 : ℕ) : ℤ)) ∧
    resolvePivotSpec "hour" none W H =
      (pyTrunc ((W : ℚ) * (1/2)), pyTrunc ((H : ℚ) * (41/50))) ∧
    resolvePivotSpec "second" none W H = (((W / 2 : ℕ) : ℤ), (H : ℤ) - 1) := by
  have hmax : max 1 (max iw ih) = max iw ih :=
    max_eq_right (le_trans hiw (le_max_left _ _))
  refine ⟨?_, rfl, rfl, rfl, rfl, rfl⟩
  unfold scaledDims
  rw [hmax]

/-- C8 witness: the amended transform equations at a 7x10 image with target
length 17 and a 100x100 box. -/
theorem C8_witness :
    (1 : ℕ) ≤ 7 ∧ (1 : ℕ) ≤ 10 ∧
    scaledDims 7 10 17 =
      (max 1 (pyTrunc ((7 : ℚ) * ((17 : ℚ) / ((max 7 10 : ℕ) : ℚ)))).toNat,
       max 1 (pyTrunc ((10 : ℚ) * ((17 : ℚ) / ((max 7 10 : ℕ) : ℚ)))).toNat) :=
  ⟨by norm_num, by norm_num,
    (C8_transform_engine 7 10 17 (by norm_num) (by norm_num) "hour" 100 100 0 0).1⟩

/-- C8 counterexample to the claim as stated: a 7x10 image at target length
17 gets width int(7 * 1.7) = 11, not round(11.9) = 12; and an unset hour
pivot resolves to the default Ratio(0.5, 0.82), giving (50, 82) in a 100x100
box, not the center (50, 50). -/
theorem C8_cex :
    (scaledDims 7 10 17).1 = 11 ∧
    pyRound ((7 : ℚ) * ((17 : ℚ) / 10)) = 12 ∧
    (11 : ℕ) ≠ 12 ∧
    resolvePivotSpec "hour" none 100 100 = ((50 : ℤ), (82 : ℤ)) ∧
    ((50, 82) : ℤ × ℤ) ≠ (((100 / 2 : ℕ) : ℤ), ((100 / 2 : ℕ) : ℤ)) := by
  refine ⟨?_, ?_, by decide, ?_, by decide⟩
  · norm_num [scaledDims, pyTrunc]
    decide
  · norm_num [pyRound]
  · norm_num [resolvePivotSpec, defaultHandPivot, pyTrunc, Prod.ext_iff]

/-- C9 (code_bug evidence): the never-raises claim fails on the program.
zoneinfo.ZoneInfo raises ValueError (not ZoneInfoNotFoundError) for a
malformed key such as one with a parent-directory component;
_resolve_timezone catches only ZoneInfoNotFoundError and _load_clock_config
has no guard, so a configured timezone of "../x" raises ValueError to the
caller for EVERY zone database.  By contrast the intended silent-fallback
path does work for ordinary strings: an unknown well-formed name gives None,
a known abbreviation resolves through the table, and a blank string gives
None. -/
theorem C9_malformed_key_raises :
    (∀ db : String → Bool, resolveTimezone db "../x" = Except.error TzErr.valueError) ∧
    resolveTimezone sampleTzDb "Nowhere" = Except.ok none ∧
    resolveTimezone sampleTzDb "est" = Except.ok (some "America/New_York") ∧
    resolveTimezone sampleTzDb "" = Except.ok none :=
  ⟨fun _ => rfl, rfl, rfl, rfl⟩

/-- C10: the clock renders digital exactly when the animation flag is false
and the clock type string equals "Digital"; with type "Digital" but animation
enabled the analog display is built; and the refresh on show re-derives the
flag from the freshly loaded config, rebuilding only on change. -/
theorem C10_digital_mode (cfg : ClockConfig) (cur : Bool) (curDisplay : DisplayKind) :
    (useDigitalCfg cfg = true ↔ (cfg.animation = false ∧ cfg.clockType = "Digital")) ∧
    (cfg.clockType = "Digital" → cfg.animation = true →
      buildDisplay (useDigitalCfg cfg) = DisplayKind.analog) ∧
    (curDisplay = buildDisplay cur →
      (refreshOnShow cur curDisplay cfg).2 = buildDisplay (useDigitalCfg cfg)) ∧
    (refreshOnShow cur curDisplay cfg).1 = useDigitalCfg cfg := by
  refine ⟨?_, ?_, ?_, ?_⟩
  · unfold useDigitalCfg
    rw [Bool.and_eq_true, Bool.not_eq_true', beq_iff_eq]
  · intro h1 h2
    unfold buildDisplay useDigitalCfg
    rw [h2]
    simp
  · intro hcd
    unfold refreshOnShow
    by_cases hEq : useDigitalCfg cfg = cur
    · rw [if_pos hEq, hcd, hEq]
    · rw [if_neg hEq]
  · unfold refreshOnShow
    by_cases hEq : useDigitalCfg cfg = cur
    · rw [if_pos hEq, hEq]
    · rw [if_neg hEq]

/-- C10 witness: with animation on and clock type "Digital", the analog
display is built and the refresh re-derives the flag. -/
theorem C10_witness :
    buildDisplay (useDigitalCfg ⟨true, "Digital"⟩) = DisplayKind.analog ∧
    (refreshOnShow true DisplayKind.digital ⟨true, "Digital"⟩).1 =
      useDigitalCfg ⟨true, "Digital"⟩ := by
  have h := C10_digital_mode ⟨true, "Digital"⟩ true DisplayKind.digital
  exact ⟨h.2.1 rfl rfl, h.2.2.2⟩

end ClockApp
